import Mathlib

/-!
Shallow embedding of the `stacker_blueprints` repository
(`stacker_blueprints/aws_lambda.py` and `stacker_blueprints/postgres.py`).

Blueprints build an in-memory CloudFormation template: a condition registry,
a list of resources and a list of outputs, each appended in construction
order.  Troposphere values (refs, attribute lookups, joins, nested property
objects, the `NoValue` sentinel, the `Region` and `AccountId` pseudo
parameters) are embedded as the inductive type `CfValue`.
-/

set_option autoImplicit false
set_option maxRecDepth 8192

namespace StackerBlueprints

/-- Embedded troposphere/CloudFormation values: literals, `Ref`, `GetAtt`,
`Join`, lists, nested property objects (key/value pairs), the `NoValue`
sentinel and the `Region` / `AccountId` pseudo parameters. -/
inductive CfValue where
  | lit (s : String)
  | num (n : Int)
  | boolv (b : Bool)
  | ref (name : String)
  | getAtt (res attr : String)
  | join (sep : String) (parts : List CfValue)
  | arr (xs : List CfValue)
  | pairs (kvs : List (String × CfValue))
  | noValue
  | region
  | accountId

/-- A named template condition expression: `Not`, `Equals`, `And` and a
reference to another named condition (`troposphere.Condition(name)`). -/
inductive CondExpr where
  | notE (e : CondExpr)
  | equalsE (a b : CfValue)
  | andE (es : List CondExpr)
  | condRef (name : String)

/-- A resource node of the template graph: title, CloudFormation kind,
property list in declaration order, and the optional owning condition. -/
structure Resource where
  title : String
  kind : String
  props : List (String × CfValue)
  condition : Option String := none

/-- A template output: name, value and optional owning condition. -/
structure TOutput where
  name : String
  value : CfValue
  condition : Option String := none

/-- The in-memory template: condition registry, resource graph and output
list, each in registration order (append-only, as in troposphere). -/
structure Template where
  conditions : List (String × CondExpr) := []
  resources : List Resource := []
  outputs : List TOutput := []

def Template.empty : Template := {}

def Template.add_resource (t : Template) (r : Resource) : Template :=
  { t with resources := t.resources ++ [r] }

def Template.add_output (t : Template) (o : TOutput) : Template :=
  { t with outputs := t.outputs ++ [o] }

def Template.add_condition (t : Template) (name : String) (e : CondExpr) : Template :=
  { t with conditions := t.conditions ++ [(name, e)] }

/-- Association-list lookup on a property list (first match). -/
def lookupProp : List (String × CfValue) → String → Option CfValue
  | [], _ => none
  | (k, x) :: rest, key => if k == key then some x else lookupProp rest key

/-- First resource of the template with the given title. -/
def Template.findResource (t : Template) (title : String) : Option Resource :=
  t.resources.find? (fun r => r.title == title)

/-- Property `prop` of the resource titled `title`, when both exist. -/
def resProp (t : Template) (title prop : String) : Option CfValue :=
  (t.findResource title).bind (fun r => lookupProp r.props prop)

/-- Number of resources of the given CloudFormation kind. -/
def countKind (t : Template) (k : String) : Nat :=
  (t.resources.filter (fun r => r.kind == k)).length

/-- The outputs of the template with the given name. -/
def outputsNamed (t : Template) (name : String) : List TOutput :=
  t.outputs.filter (fun o => o.name == name)

/-! ### `aws_lambda.py`: module-level helpers -/

/-- `lambda_basic_execution_statements(log_group)`: the single policy
statement letting Lambda create and write its CloudWatch log groups and
streams (`aws_lambda.py`, lines 26-50). -/
def lambda_basic_execution_statements (log_group : CfValue) : List CfValue :=
  let log_group_parts : List CfValue :=
    [.lit "arn:aws:logs:", .region, .lit ":", .accountId, .lit ":log-group:", log_group]
  let log_group_arn := CfValue.join "" log_group_parts
  let log_stream_wild := CfValue.join "" (log_group_parts ++ [.lit ":*"])
  [CfValue.pairs
    [("Effect", .lit "Allow"),
     ("Resource", .arr [log_group_arn, log_stream_wild]),
     ("Action", .arr [.lit "logs:CreateLogGroup", .lit "logs:CreateLogStream",
                      .lit "logs:PutLogEvents"])]]

/-- Modelled from the spec: `get_lambda_assumerole_policy` comes from the
external `awacs.helpers.trust` collaborator (not part of this repository):
the fixed trust policy letting the Lambda service assume the role. -/
def get_lambda_assumerole_policy : CfValue :=
  CfValue.pairs
    [("Statement", .arr
      [.pairs [("Effect", .lit "Allow"),
               ("Principal", .pairs [("Service", .arr [.lit "lambda.amazonaws.com"])]),
               ("Action", .arr [.lit "sts:AssumeRole"])]])]

/-! ### `Function` blueprint -/

/-- The resolved variables of the `Function` blueprint
(`aws_lambda.py`, `Function.VARIABLES`, lines 54-138).  `Code` is the opaque
`troposphere.awslambda.Code` object and is passed through unchanged. -/
structure FunctionVars where
  Code : CfValue
  DeadLetterArn : String := ""
  Description : String := ""
  Environment : List (String × String) := []
  Handler : String := "handler"
  KmsKeyArn : String := ""
  MemorySize : Int := 128
  Runtime : String
  Timeout : Int := 3
  VpcConfig : List (String × CfValue) := []
  Role : String := ""
  AliasName : String := ""
  AliasVersion : String := "$LATEST"

namespace Function

/-- `Function.dead_letter_config` (lines 143-148): `NoValue` when the
`DeadLetterArn` variable is empty, else a `DeadLetterConfig` wrapper. -/
def dead_letter_config (v : FunctionVars) : CfValue :=
  if v.DeadLetterArn = "" then .noValue
  else .pairs [("TargetArn", .lit v.DeadLetterArn)]

/-- `Function.environment` (lines 150-155): `NoValue` when the `Environment`
mapping is empty, else an `Environment` wrapper holding the variables. -/
def environment (v : FunctionVars) : CfValue :=
  if v.Environment = [] then .noValue
  else .pairs [("Variables", .pairs (v.Environment.map (fun kv => (kv.1, CfValue.lit kv.2))))]

/-- `Function.vpc_config` (lines 157-162): `NoValue` when the `VpcConfig`
mapping is empty, else a `VPCConfig` built from the mapping's keys. -/
def vpc_config (v : FunctionVars) : CfValue :=
  if v.VpcConfig.isEmpty then .noValue
  else .pairs v.VpcConfig

/-- `Function.generate_policy_statements` (lines 164-174). -/
def generate_policy_statements : List CfValue :=
  let log_group := CfValue.join "/" [.lit "/aws/lambda", .ref "Function"]
  lambda_basic_execution_statements log_group

/-- `Function.create_role` (lines 176-195): adds the IAM role and the
`RoleName` / `RoleArn` outputs, and returns the role ARN (`GetAtt Role.Arn`)
stored into `self.role_arn`. -/
def create_role (t : Template) : Template × CfValue :=
  let t := t.add_resource
    { title := "Role", kind := "AWS::IAM::Role",
      props := [("AssumeRolePolicyDocument", get_lambda_assumerole_policy)] }
  let t := t.add_output { name := "RoleName", value := .ref "Role" }
  let role_arn := CfValue.getAtt "Role" "Arn"
  let t := t.add_output { name := "RoleArn", value := role_arn }
  (t, role_arn)

/-- `Function.create_function` (lines 197-251): the Lambda function itself,
its outputs, the `LatestVersion` resource and outputs, and the optional
alias with its `AliasArn` output. -/
def create_function (role_arn : CfValue) (v : FunctionVars) (t : Template) : Template :=
  let t := t.add_resource
    { title := "Function", kind := "AWS::Lambda::Function",
      props :=
        [("Code", v.Code),
         ("DeadLetterConfig", dead_letter_config v),
         ("Description", if v.Description = "" then .noValue else .lit v.Description),
         ("Environment", environment v),
         ("Handler", .lit v.Handler),
         ("KmsKeyArn", if v.KmsKeyArn = "" then .noValue else .lit v.KmsKeyArn),
         ("MemorySize", .num v.MemorySize),
         ("Role", role_arn),
         ("Runtime", .lit v.Runtime),
         ("Timeout", .num v.Timeout),
         ("VpcConfig", vpc_config v)] }
  let t := t.add_output { name := "FunctionName", value := .ref "Function" }
  let t := t.add_output { name := "FunctionArn", value := .getAtt "Function" "Arn" }
  let t := t.add_resource
    { title := "LatestVersion", kind := "AWS::Lambda::Version",
      props := [("FunctionName", .ref "Function")] }
  let t := t.add_output { name := "LatestVersion", value := .ref "LatestVersion" }
  let t := t.add_output { name := "LatestVersionArn", value := .getAtt "LatestVersion" "Version" }
  if v.AliasName = "" then t
  else
    let t := t.add_resource
      { title := "Alias", kind := "AWS::Lambda::Alias",
        props :=
          [("Name", .lit v.AliasName),
           ("FunctionName", .ref "Function"),
           ("FunctionVersion", .lit (if v.AliasVersion = "" then "$LATEST" else v.AliasVersion))] }
    t.add_output { name := "AliasArn", value := .ref "Alias" }

/-- `Function.create_policy` (lines 253-270): the IAM policy attached to the
created role, plus the `PolicyName` output.  `policy_prefix` is
`self.context.get_fqn(self.name)` from the external context collaborator,
passed in as `fqn`. -/
def create_policy (fqn : String) (t : Template) : Template :=
  let t := t.add_resource
    { title := "Policy", kind := "AWS::IAM::Policy",
      props :=
        [("PolicyName", .lit (fqn ++ "-policy")),
         ("PolicyDocument", .pairs [("Statement", .arr generate_policy_statements)]),
         ("Roles", .arr [.ref "Role"])] }
  t.add_output { name := "PolicyName", value := .ref "Policy" }

/-- `Function.create_template` (lines 272-278): `self.role_arn` starts as the
`Role` variable; when that variable is empty the role and policy are created
(and `create_role` overwrites `self.role_arn` with the role's `GetAtt Arn`)
before the function is created. -/
def create_template (fqn : String) (v : FunctionVars) : Template :=
  let role_arn := CfValue.lit v.Role
  if v.Role = "" then
    let (t, role_arn) := create_role Template.empty
    let t := create_policy fqn t
    create_function role_arn v t
  else
    create_function role_arn v Template.empty

end Function

/-! ### `FunctionScheduler` blueprint -/

/-- One character is kept by `cf_safe_name` when it is alphanumeric. -/
def isAlnum (c : Char) : Bool := c.isAlpha || c.isDigit

/-- The maximal runs of alphanumeric characters of a character list. -/
def alnumRuns : List Char → List (List Char)
  | [] => []
  | c :: rest =>
    if isAlnum c then
      match alnumRuns rest, rest with
      | r :: rs, d :: _ =>
        if isAlnum d then (c :: r) :: rs else [c] :: r :: rs
      | rs, _ => [c] :: rs
    else alnumRuns rest

/-- Capitalize one alphanumeric run: first character uppercased, the rest
lowercased (Python `str.capitalize`). -/
def capitalizeRun : List Char → String
  | [] => ""
  | c :: cs => String.mk (c.toUpper :: cs.map Char.toLower)

/-- Modelled from the spec: `cf_safe_name` comes from the external
`stacker.util` collaborator (not part of this repository's source).  It
normalizes an identifier into a valid CloudFormation resource name by
dropping non-alphanumeric characters: the alphanumeric runs are capitalized
and concatenated. -/
def cf_safe_name (s : String) : String :=
  String.join ((alnumRuns s.data).map capitalizeRun)

/-- A target binding of a `troposphere.events.Rule`: its `Arn` and `Id`. -/
structure RuleTarget where
  Arn : String
  Id : String

/-- The resolved `CloudwatchEventsRule` variable: a `troposphere.events.Rule`
object with a title, an optional `Targets` attribute (absent when not given,
read back with `getattr(rule, "Targets", [])`), and its other parameters. -/
structure EventsRule where
  title : String
  Targets : Option (List RuleTarget) := none
  extraProps : List (String × CfValue) := []

/-- Serialization of the rule object as the resource added to the template. -/
def EventsRule.toResource (r : EventsRule) : Resource :=
  { title := r.title, kind := "AWS::Events::Rule",
    props :=
      (match r.Targets with
       | none => []
       | some ts =>
         [("Targets", CfValue.arr (ts.map fun tgt =>
            CfValue.pairs [("Arn", .lit tgt.Arn), ("Id", .lit tgt.Id)]))])
      ++ r.extraProps }

/-- Python `dict` assignment `d[k] = v` on an insertion-ordered association
list: an existing key keeps its position and gets the new value, a new key
is appended at the end. -/
def dictInsert : List (String × String) → String → String → List (String × String)
  | [], k, v => [(k, v)]
  | (k', v') :: rest, k, v =>
    if k' == k then (k', v) :: rest else (k', v') :: dictInsert rest k v

/-- Association-list lookup (first match), for the gathered ARN dict. -/
def lookupS : List (String × String) → String → Option String
  | [], _ => none
  | (k, x) :: rest, key => if k == key then some x else lookupS rest key

/-- Python `str.startswith`, on embedded strings: a character-wise prefix
test. -/
def strStartsWith (s pre : String) : Bool := pre.data.isPrefixOf s.data

namespace FunctionScheduler

/-- One iteration of the gathering loop of
`FunctionScheduler.create_scheduler` (`aws_lambda.py`, lines 296-299): a
target whose `Arn` starts with `"arn:aws:lambda:"` is recorded in the dict
under `cf_safe_name(target.Id)`; any other target is skipped. -/
def gatherStep (d : List (String × String)) (tgt : RuleTarget) :
    List (String × String) :=
  if strStartsWith tgt.Arn "arn:aws:lambda:" then
    dictInsert d (cf_safe_name tgt.Id) tgt.Arn
  else d

/-- The gathering loop of `FunctionScheduler.create_scheduler`
(`aws_lambda.py`, lines 293-299): walk the targets in order, starting from
the empty dict `aws_lambda_arns = {}`. -/
def gatherLambdaArns (ts : List RuleTarget) : List (String × String) :=
  ts.foldl gatherStep []

/-- The permission resource built for one entry of the gathered dict
(`aws_lambda.py`, lines 305-314). -/
def permResource (ruleTitle : String) (kv : String × String) : Resource :=
  { title := "PermToInvokeFunctionFor" ++ kv.1, kind := "AWS::Lambda::Permission",
    props :=
      [("Principal", .lit "events.amazonaws.com"),
       ("Action", .lit "lambda:InvokeFunction"),
       ("FunctionName", .lit kv.2),
       ("SourceArn", .getAtt ruleTitle "Arn")] }

/-- `FunctionScheduler.create_scheduler` (lines 290-314): gather the lambda
ARNs, add the rule itself, then add one permission per dict entry in dict
iteration (insertion) order. -/
def create_scheduler (rule : EventsRule) (t : Template) : Template :=
  let aws_lambda_arns := gatherLambdaArns (rule.Targets.getD [])
  let t := t.add_resource rule.toResource
  aws_lambda_arns.foldl (fun t kv => t.add_resource (permResource rule.title kv)) t

/-- `FunctionScheduler.create_template` (lines 316-317). -/
def create_template (rule : EventsRule) : Template :=
  create_scheduler rule Template.empty

end FunctionScheduler

/-! ### `PostgresRDS` blueprint (`postgres.py`) -/

/-- `RDS_INSTANCE_NAME % name` (`postgres.py`, line 15). -/
def RDS_INSTANCE_NAME (name : String) : String := "PostgresRDS" ++ name

/-- `RDS_SUBNET_GROUP % name` (line 16). -/
def RDS_SUBNET_GROUP (name : String) : String := name ++ "SubnetGroup"

/-- `RDS_SG_NAME % name` (line 17). -/
def RDS_SG_NAME (name : String) : String := "RdsSG" ++ name

namespace PostgresRDS

/-- `PostgresRDS.create_conditions` (lines 60-74): three non-emptiness tests
on the CFN parameters, then their conjunction `CreateInternalHostname`. -/
def create_conditions (t : Template) : Template :=
  let t := t.add_condition "HasInternalZone"
    (.notE (.equalsE (.ref "InternalZoneId") (.lit "")))
  let t := t.add_condition "HasInternalZoneName"
    (.notE (.equalsE (.ref "InternalZoneName") (.lit "")))
  let t := t.add_condition "HasInternalHostname"
    (.notE (.equalsE (.ref "InternalHostname") (.lit "")))
  t.add_condition "CreateInternalHostname"
    (.andE [.condRef "HasInternalZone", .condRef "HasInternalZoneName",
            .condRef "HasInternalHostname"])

/-- `PostgresRDS.create_subnet_group` (lines 76-82). -/
def create_subnet_group (name : String) (t : Template) : Template :=
  t.add_resource
    { title := RDS_SUBNET_GROUP name, kind := "AWS::RDS::DBSubnetGroup",
      props :=
        [("DBSubnetGroupDescription", .lit (name ++ " VPC subnet group.")),
         ("SubnetIds", .ref "PrivateSubnets")] }

/-- `PostgresRDS.create_security_group` (lines 84-92). -/
def create_security_group (name : String) (t : Template) : Template :=
  let sg_name := RDS_SG_NAME name
  let t := t.add_resource
    { title := sg_name, kind := "AWS::EC2::SecurityGroup",
      props :=
        [("GroupDescription", .lit (sg_name ++ " RDS security group")),
         ("VpcId", .ref "VpcId")] }
  t.add_output { name := "SecurityGroup", value := .ref sg_name }

/-- `PostgresRDS.create_rds` (lines 94-135): the DB instance, the
condition-gated CNAME record, the unconditional `DBAddress` output and the
condition-gated `DBCname` output.  The resolved CFN-typed variables surface
only as template parameters referenced by name, never as values here. -/
def create_rds (name : String) (t : Template) : Template :=
  let db_name := RDS_INSTANCE_NAME name
  let t := t.add_resource
    { title := db_name, kind := "AWS::RDS::DBInstance",
      props :=
        [("AllocatedStorage", .ref "AllocatedStorage"),
         ("AllowMajorVersionUpgrade", .boolv false),
         ("AutoMinorVersionUpgrade", .boolv true),
         ("BackupRetentionPeriod", .num 30),
         ("DBName", .ref "DBName"),
         ("DBInstanceClass", .ref "InstanceType"),
         ("DBSubnetGroupName", .ref (RDS_SUBNET_GROUP name)),
         ("Engine", .lit "postgres"),
         ("EngineVersion", .lit "9.3.14"),
         ("MasterUsername", .ref "MasterUser"),
         ("MasterUserPassword", .ref "MasterUserPassword"),
         ("MultiAZ", .boolv true),
         ("PreferredBackupWindow", .ref "PreferredBackupWindow"),
         ("VPCSecurityGroups", .arr [.ref (RDS_SG_NAME name)])] }
  let endpoint := CfValue.getAtt db_name "Endpoint.Address"
  let t := t.add_resource
    { title := db_name ++ "DnsRecord", kind := "AWS::Route53::RecordSet",
      props :=
        [("HostedZoneId", .ref "InternalZoneId"),
         ("Comment", .lit "RDS DB CNAME Record"),
         ("Name", .join "." [.ref "InternalHostname", .ref "InternalZoneName"]),
         ("Type", .lit "CNAME"),
         ("TTL", .lit "120"),
         ("ResourceRecords", .arr [endpoint])],
      condition := some "CreateInternalHostname" }
  let t := t.add_output { name := "DBAddress", value := endpoint }
  t.add_output
    { name := "DBCname", value := .ref (db_name ++ "DnsRecord"),
      condition := some "CreateInternalHostname" }

/-- `PostgresRDS.create_template` (lines 137-141). -/
def create_template (name : String) : Template :=
  let t := create_conditions Template.empty
  let t := create_subnet_group name t
  let t := create_security_group name t
  create_rds name t

end PostgresRDS

/-! ### Variable schemas and the resolver -/

/-- A resolved variable value: a string, an integer, a string mapping, or an
opaque provider-native (troposphere-typed) object. -/
inductive VarValue where
  | str (s : String)
  | int (n : Int)
  | dict (kvs : List (String × String))
  | tropo (v : CfValue)

/-- One declared variable: its name and its optional default.  A variable
without a default is required. -/
structure VariableSpec where
  name : String
  default? : Option VarValue

/-- Association-list lookup (first match) on supplied variable values. -/
def lookupV : List (String × VarValue) → String → Option VarValue
  | [], _ => none
  | (k, x) :: rest, key => if k == key then some x else lookupV rest key

/-- The value one declared variable resolves to: the supplied value when one
is given, else the declared default, else nothing. -/
def resolveVar (s : VariableSpec) (supplied : List (String × VarValue)) :
    Option VarValue :=
  match lookupV supplied s.name with
  | some v => some v
  | none => s.default?

/-- Modelled from the spec: the variable resolver lives in the external
blueprint base class (`stacker.blueprints.base`), not in this repository's
source.  `resolve(declaredSchema, suppliedValues)` walks the declared schema
in order; every declared variable resolves to the supplied value when one is
given, else to its declared default, and a required variable (no default)
that is not supplied fails with `MissingRequiredVariable` naming it. -/
def resolve : List VariableSpec → List (String × VarValue) →
    Except String (List (String × VarValue))
  | [], _ => .ok []
  | s :: rest, supplied =>
    match resolveVar s supplied with
    | some v => (resolve rest supplied).map (fun out => (s.name, v) :: out)
    | none => .error ("MissingRequiredVariable: " ++ s.name)

/-- `Function.VARIABLES` (`aws_lambda.py`, lines 54-138), in declaration
order, keeping each variable's declared default; `Code` and `Runtime` have
none and are required. -/
def Function.VARIABLES : List VariableSpec :=
  [⟨"Code", none⟩,
   ⟨"DeadLetterArn", some (.str "")⟩,
   ⟨"Description", some (.str "")⟩,
   ⟨"Environment", some (.dict [])⟩,
   ⟨"Handler", some (.str "handler")⟩,
   ⟨"KmsKeyArn", some (.str "")⟩,
   ⟨"MemorySize", some (.int 128)⟩,
   ⟨"Runtime", none⟩,
   ⟨"Timeout", some (.int 3)⟩,
   ⟨"VpcConfig", some (.dict [])⟩,
   ⟨"Role", some (.str "")⟩,
   ⟨"AliasName", some (.str "")⟩,
   ⟨"AliasVersion", some (.str "$LATEST")⟩]

/-- `PostgresRDS.VARIABLES` (`postgres.py`, lines 21-58), in declaration
order; `VpcId`, `PrivateSubnets`, `MasterUserPassword` and `DBName` have no
default and are required. -/
def PostgresRDS.VARIABLES : List VariableSpec :=
  [⟨"VpcId", none⟩,
   ⟨"PrivateSubnets", none⟩,
   ⟨"InstanceType", some (.str "db.m3.large")⟩,
   ⟨"AllocatedStorage", some (.str "10")⟩,
   ⟨"MasterUser", some (.str "dbuser")⟩,
   ⟨"MasterUserPassword", none⟩,
   ⟨"PreferredBackupWindow", some (.str "11:00-12:00")⟩,
   ⟨"DBName", none⟩,
   ⟨"InternalZoneId", some (.str "")⟩,
   ⟨"InternalZoneName", some (.str "")⟩,
   ⟨"InternalHostname", some (.str "")⟩]

/-! ### Condition evaluation and well-formedness -/

/-- Modelled from the spec: render-time evaluation of the atoms appearing in
condition expressions is done by the downstream renderer, which maps each
`Ref` to the supplied parameter value (the resolved variable) via `env`. -/
def evalAtom (env : String → String) : CfValue → String
  | .lit s => s
  | .ref n => env n
  | _ => ""

mutual

/-- Modelled from the spec: render-time evaluation of a condition
expression, given `env` for parameter references and `lookup` for references
to previously registered named conditions. -/
def evalExpr (env : String → String) (lookup : String → Bool) : CondExpr → Bool
  | .notE e => !(evalExpr env lookup e)
  | .equalsE a b => evalAtom env a == evalAtom env b
  | .andE es => evalExprList env lookup es
  | .condRef n => lookup n

/-- Conjunction of the evaluations of a list of condition expressions. -/
def evalExprList (env : String → String) (lookup : String → Bool) :
    List CondExpr → Bool
  | [] => true
  | e :: es => evalExpr env lookup e && evalExprList env lookup es

end

/-- Evaluate a condition registry in registration order: each named
condition may refer to the conditions registered before it. -/
def evalConds (env : String → String) (conds : List (String × CondExpr)) :
    String → Bool :=
  conds.foldl
    (fun acc ne => fun m => if m == ne.1 then evalExpr env acc ne.2 else acc m)
    (fun _ => false)

mutual

/-- The names of the conditions referenced (as operands) by an expression. -/
def condRefs : CondExpr → List String
  | .notE e => condRefs e
  | .equalsE _ _ => []
  | .andE es => condRefsList es
  | .condRef n => [n]

/-- The condition names referenced by any expression of a list. -/
def condRefsList : List CondExpr → List String
  | [] => []
  | e :: es => condRefs e ++ condRefsList es

end

/-- Modelled from the spec: the registry check of the conditional predicate
builder — registering a composite fails with `UndefinedCondition` unless
every operand condition name was registered strictly before it.  A registry
passes when every entry's operands are among the earlier names. -/
def wellFormedFrom (defined : List String) : List (String × CondExpr) → Bool
  | [] => true
  | ne :: rest =>
    (condRefs ne.2).all (fun n => defined.contains n) &&
      wellFormedFrom (ne.1 :: defined) rest

/-! ## Concrete inputs used by witnesses and counterexamples -/

/-- Concrete variables whose `Role` is a pre-existing role ARN. -/
def c1roleGiven : FunctionVars :=
  { Code := .lit "code", Runtime := "python3.6",
    Role := "arn:aws:iam::123456789012:role/existing" }

/-- Concrete variables whose `Role` is left at its empty default. -/
def c1roleEmpty : FunctionVars := { Code := .lit "code", Runtime := "python3.6" }

/-- Concrete supplied values: just the two required `Function` variables. -/
def c5supplied : List (String × VarValue) :=
  [("Code", .tropo (.lit "code")), ("Runtime", .str "python3.6")]

/-- The resolution result of `c5supplied` against `Function.VARIABLES`. -/
def c5out : List (String × VarValue) :=
  [("Code", .tropo (.lit "code")), ("DeadLetterArn", .str ""), ("Description", .str ""),
   ("Environment", .dict []), ("Handler", .str "handler"), ("KmsKeyArn", .str ""),
   ("MemorySize", .int 128), ("Runtime", .str "python3.6"), ("Timeout", .int 3),
   ("VpcConfig", .dict []), ("Role", .str ""), ("AliasName", .str ""),
   ("AliasVersion", .str "$LATEST")]

/-- Concrete variables with an alias name and an empty alias version. -/
def c8alias : FunctionVars :=
  { Code := .lit "code", Runtime := "python3.6",
    AliasName := "live", AliasVersion := "" }

/-- Concrete variables with the alias name left at its empty default. -/
def c8noAlias : FunctionVars := { Code := .lit "code", Runtime := "python3.6" }

/-- The Arn of the last target of the list that matches the lambda prefix
and whose Id sanitizes to the given safe name. -/
def lastMatchArn (ts : List RuleTarget) (s : String) : Option String :=
  ts.foldl
    (fun a tgt =>
      if strStartsWith tgt.Arn "arn:aws:lambda:" && (cf_safe_name tgt.Id == s) then
        some tgt.Arn
      else a)
    none

/-- A rule with two lambda targets with distinct sanitized Ids and one
non-lambda target. -/
def c2rule : EventsRule :=
  { title := "CronRule",
    Targets := some
      [⟨"arn:aws:lambda:us-east-1:123456789012:function:one", "func-one"⟩,
       ⟨"arn:aws:sns:us-east-1:123456789012:topic", "a topic"⟩,
       ⟨"arn:aws:lambda:us-east-1:123456789012:function:two", "func-two"⟩] }

/-- A rule with two distinct lambda targets whose Ids sanitize to the same
safe name: both "my-func" and "my.func" sanitize to "MyFunc". -/
def collidingRule : EventsRule :=
  { title := "CronRule",
    Targets := some
      [⟨"arn:aws:lambda:us-east-1:123456789012:function:one", "my-func"⟩,
       ⟨"arn:aws:lambda:us-east-1:123456789012:function:two", "my.func"⟩] }


/-! ## General lemmas about the resolver -/

theorem resolveVar_eq_none {s : VariableSpec} {supplied : List (String × VarValue)} :
    resolveVar s supplied = none ↔
      lookupV supplied s.name = none ∧ s.default? = none := by
  unfold resolveVar
  cases h : lookupV supplied s.name <;> simp

theorem resolve_cons_ok {s : VariableSpec} {rest : List VariableSpec}
    {supplied out : List (String × VarValue)}
    (h : resolve (s :: rest) supplied = .ok out) :
    ∃ v out', resolveVar s supplied = some v ∧
      resolve rest supplied = .ok out' ∧ out = (s.name, v) :: out' := by
  rw [resolve] at h
  cases hv : resolveVar s supplied with
  | none => rw [hv] at h; exact absurd h (by simp)
  | some v =>
    rw [hv] at h
    cases hrec : resolve rest supplied with
    | error e => rw [hrec] at h; exact absurd h (by simp [Except.map])
    | ok out' =>
      rw [hrec] at h
      simp [Except.map] at h
      exact ⟨v, out', rfl, rfl, h.symm⟩

/-- A successful resolution binds every declared variable to some value. -/
theorem resolve_ok_total (schema : List VariableSpec)
    (supplied out : List (String × VarValue))
    (h : resolve schema supplied = .ok out) :
    ∀ s ∈ schema, ∃ v, lookupV out s.name = some v := by
  induction schema generalizing out with
  | nil => intro s hs; simp at hs
  | cons s0 rest ih =>
    intro s hs
    obtain ⟨v, out', hv, hrec, rfl⟩ := resolve_cons_ok h
    rcases List.mem_cons.mp hs with rfl | hmem
    · exact ⟨v, by simp [lookupV]⟩
    · by_cases hb : s0.name == s.name
      · exact ⟨v, by simp [lookupV, hb]⟩
      · obtain ⟨w, hw⟩ := ih out' hrec s hmem
        exact ⟨w, by simp [lookupV, hb, hw]⟩

/-- A variable with a default that is not supplied resolves to the default
(for schemas with distinct variable names). -/
theorem resolve_default (schema : List VariableSpec)
    (supplied out : List (String × VarValue))
    (hnd : (schema.map VariableSpec.name).Nodup)
    (h : resolve schema supplied = .ok out) :
    ∀ s ∈ schema, ∀ d, s.default? = some d → lookupV supplied s.name = none →
      lookupV out s.name = some d := by
  induction schema generalizing out with
  | nil => intro s hs; simp at hs
  | cons s0 rest ih =>
    intro s hs d hd hl
    obtain ⟨v, out', hv, hrec, rfl⟩ := resolve_cons_ok h
    rw [List.map_cons, List.nodup_cons] at hnd
    rcases List.mem_cons.mp hs with rfl | hmem
    · unfold resolveVar at hv
      rw [hl, hd] at hv
      cases hv
      simp [lookupV]
    · have hne : s0.name ≠ s.name := by
        intro he
        exact hnd.1 (he ▸ List.mem_map_of_mem VariableSpec.name hmem)
      have hb : (s0.name == s.name) = false := beq_eq_false_iff_ne.mpr hne
      rw [lookupV, hb]
      exact ih out' hnd.2 hrec s hmem d hd hl

/-- Resolution with a required variable absent fails with
`MissingRequiredVariable` naming a required, absent variable. -/
theorem resolve_missing (schema : List VariableSpec)
    (supplied : List (String × VarValue)) :
    ∀ s ∈ schema, s.default? = none → lookupV supplied s.name = none →
      ∃ w, resolve schema supplied = .error ("MissingRequiredVariable: " ++ w) ∧
        ∃ s', s' ∈ schema ∧ s'.name = w ∧ s'.default? = none ∧
          lookupV supplied s'.name = none := by
  induction schema with
  | nil => intro s hs; simp at hs
  | cons s0 rest ih =>
    intro s hs hd hl
    cases hv : resolveVar s0 supplied with
    | none =>
      obtain ⟨hl0, hd0⟩ := resolveVar_eq_none.mp hv
      refine ⟨s0.name, ?_, s0, List.mem_cons_self s0 rest, rfl, hd0, hl0⟩
      rw [resolve, hv]
    | some v =>
      rcases List.mem_cons.mp hs with rfl | hmem
      · unfold resolveVar at hv
        rw [hl, hd] at hv
        cases hv
      · obtain ⟨w, hw, s', hs', hn', hd', hl'⟩ := ih s hmem hd hl
        refine ⟨w, ?_, s', List.mem_cons_of_mem s0 hs', hn', hd', hl'⟩
        rw [resolve, hv, hw]
        rfl

/-! ## General lemmas about the scheduler dict and template folds -/

theorem string_append_left_cancel {s a b : String} (h : s ++ a = s ++ b) : a = b := by
  have hd : (s ++ a).data = (s ++ b).data := congrArg String.data h
  rw [String.data_append, String.data_append] at hd
  exact String.ext (List.append_cancel_left hd)

theorem beq_append_left (p a b : String) : (p ++ a == p ++ b) = (a == b) := by
  by_cases h : a = b
  · simp [h]
  · have hne : p ++ a ≠ p ++ b := fun hc => h (string_append_left_cancel hc)
    simp [h, hne]

theorem filter_map_comm {α β : Type} (l : List α) (f : α → β) (p : β → Bool) :
    (l.map f).filter p = (l.filter (fun x => p (f x))).map f := by
  induction l with
  | nil => rfl
  | cons a l ih => by_cases h : p (f a) <;> simp [h, ih]

theorem dictInsert_of_not_mem {d : List (String × String)} {k : String} (v : String)
    (h : ¬ k ∈ d.map Prod.fst) : dictInsert d k v = d ++ [(k, v)] := by
  induction d with
  | nil => rfl
  | cons kv d ih =>
    obtain ⟨k', v'⟩ := kv
    simp only [List.map_cons, List.mem_cons] at h
    push_neg at h
    have hb : (k' == k) = false := beq_eq_false_iff_ne.mpr (Ne.symm h.1)
    simp [dictInsert, hb, ih h.2]

theorem mem_keys_dictInsert {d : List (String × String)} {k v m : String} :
    m ∈ (dictInsert d k v).map Prod.fst ↔ m ∈ d.map Prod.fst ∨ m = k := by
  induction d with
  | nil => simp [dictInsert]
  | cons kv d ih =>
    obtain ⟨k', v'⟩ := kv
    by_cases hb : k' = k
    · subst hb
      simp [dictInsert]
      tauto
    · have hb' : (k' == k) = false := beq_eq_false_iff_ne.mpr hb
      simp [dictInsert, hb', ih]
      tauto

theorem dictInsert_keys_nodup {d : List (String × String)} (k v : String)
    (h : (d.map Prod.fst).Nodup) : ((dictInsert d k v).map Prod.fst).Nodup := by
  induction d with
  | nil => simp [dictInsert]
  | cons kv d ih =>
    obtain ⟨k', v'⟩ := kv
    simp only [List.map_cons, List.nodup_cons] at h
    by_cases hb : k' = k
    · subst hb
      simp only [dictInsert, beq_self_eq_true, if_true, List.map_cons, List.nodup_cons]
      exact h
    · have hb' : (k' == k) = false := beq_eq_false_iff_ne.mpr hb
      simp only [dictInsert, hb', List.map_cons, List.nodup_cons, Bool.false_eq_true,
        if_false]
      refine ⟨fun hm => ?_, ih h.2⟩
      rcases mem_keys_dictInsert.mp hm with hm' | hm'
      · exact h.1 hm'
      · exact hb hm'

theorem lookupS_dictInsert (d : List (String × String)) (k v m : String) :
    lookupS (dictInsert d k v) m = if k == m then some v else lookupS d m := by
  induction d with
  | nil => rfl
  | cons kv d ih =>
    obtain ⟨k', v'⟩ := kv
    by_cases hb : k' = k
    · subst hb
      by_cases hm : k' = m <;> simp [dictInsert, lookupS, hm]
    · have hb' : (k' == k) = false := beq_eq_false_iff_ne.mpr hb
      by_cases hm : k' = m
      · subst hm
        simp [dictInsert, hb', lookupS, beq_eq_false_iff_ne.mpr (Ne.symm hb)]
      · simp [dictInsert, hb', lookupS, beq_eq_false_iff_ne.mpr hm, ih]

theorem filter_key_nil {d : List (String × String)} {s : String}
    (h : ¬ s ∈ d.map Prod.fst) : d.filter (fun kv => kv.1 == s) = [] := by
  induction d with
  | nil => rfl
  | cons kv d ih =>
    obtain ⟨k, x⟩ := kv
    simp only [List.map_cons, List.mem_cons] at h
    push_neg at h
    simp [List.filter_cons, beq_eq_false_iff_ne.mpr (Ne.symm h.1), ih h.2]

theorem filter_key_of_nodup {d : List (String × String)} {s arn : String}
    (hnd : (d.map Prod.fst).Nodup) (h : lookupS d s = some arn) :
    d.filter (fun kv => kv.1 == s) = [(s, arn)] := by
  induction d with
  | nil => exact absurd h (by simp [lookupS])
  | cons kv d ih =>
    obtain ⟨k, x⟩ := kv
    simp only [List.map_cons, List.nodup_cons] at hnd
    by_cases hb : k = s
    · subst hb
      rw [lookupS, if_pos (beq_self_eq_true k)] at h
      cases h
      simp [List.filter_cons, filter_key_nil hnd.1]
    · rw [lookupS, if_neg (by simp [hb])] at h
      simp [List.filter_cons, beq_eq_false_iff_ne.mpr hb, ih hnd.2 h]

theorem foldl_add_resource {α : Type} (l : List α) (f : α → Resource) :
    ∀ t : Template,
      l.foldl (fun t a => t.add_resource (f a)) t =
        { t with resources := t.resources ++ l.map f } := by
  induction l with
  | nil => intro t; simp
  | cons a l ih =>
    intro t
    rw [List.foldl_cons, ih]
    simp [Template.add_resource, List.append_assoc]

namespace FunctionScheduler

theorem lookupS_foldl_gather (ts : List RuleTarget) (s : String) :
    ∀ acc : List (String × String),
      lookupS (ts.foldl gatherStep acc) s =
        ts.foldl
          (fun a tgt =>
            if strStartsWith tgt.Arn "arn:aws:lambda:" && (cf_safe_name tgt.Id == s) then
              some tgt.Arn
            else a)
          (lookupS acc s) := by
  induction ts with
  | nil => intro acc; rfl
  | cons tgt ts ih =>
    intro acc
    rw [List.foldl_cons, List.foldl_cons, ih (gatherStep acc tgt)]
    by_cases hm : strStartsWith tgt.Arn "arn:aws:lambda:"
    · by_cases hs : cf_safe_name tgt.Id = s
      · simp [gatherStep, hm, hs, lookupS_dictInsert]
      · simp [gatherStep, hm, lookupS_dictInsert,
              beq_eq_false_iff_ne.mpr hs]
    · simp [gatherStep, hm]

theorem lookupS_gather (ts : List RuleTarget) (s : String) :
    lookupS (gatherLambdaArns ts) s = lastMatchArn ts s :=
  lookupS_foldl_gather ts s []

theorem gather_foldl_keys_nodup (ts : List RuleTarget) :
    ∀ acc : List (String × String), (acc.map Prod.fst).Nodup →
      (((ts.foldl gatherStep acc)).map Prod.fst).Nodup := by
  induction ts with
  | nil => intro acc h; exact h
  | cons tgt ts ih =>
    intro acc h
    rw [List.foldl_cons]
    refine ih (gatherStep acc tgt) ?_
    unfold gatherStep
    by_cases hm : strStartsWith tgt.Arn "arn:aws:lambda:"
    · simp only [hm, if_true]
      exact dictInsert_keys_nodup _ _ h
    · simp only [hm, Bool.false_eq_true, if_false]
      exact h

theorem gather_keys_nodup (ts : List RuleTarget) :
    ((gatherLambdaArns ts).map Prod.fst).Nodup :=
  gather_foldl_keys_nodup ts [] (by simp)

theorem gather_eq_map (ts : List RuleTarget) :
    ∀ acc : List (String × String),
      (acc.map Prod.fst ++
        ((ts.filter (fun tgt => strStartsWith tgt.Arn "arn:aws:lambda:")).map
          (fun tgt => cf_safe_name tgt.Id))).Nodup →
      ts.foldl gatherStep acc =
        acc ++ ((ts.filter (fun tgt => strStartsWith tgt.Arn "arn:aws:lambda:")).map
          (fun tgt => (cf_safe_name tgt.Id, tgt.Arn))) := by
  induction ts with
  | nil => intro acc _; simp
  | cons tgt ts ih =>
    intro acc h
    by_cases hm : strStartsWith tgt.Arn "arn:aws:lambda:"
    · have hfil : (tgt :: ts).filter (fun tgt => strStartsWith tgt.Arn "arn:aws:lambda:") =
          tgt :: ts.filter (fun tgt => strStartsWith tgt.Arn "arn:aws:lambda:") := by
        simp [List.filter_cons, hm]
      rw [hfil, List.map_cons] at h
      have hnotin : ¬ cf_safe_name tgt.Id ∈ acc.map Prod.fst := by
        intro hmem
        exact (List.nodup_append.mp h).2.2 hmem (List.mem_cons_self _ _)
      have hstep : gatherStep acc tgt = acc ++ [(cf_safe_name tgt.Id, tgt.Arn)] := by
        unfold gatherStep
        rw [if_pos hm]
        exact dictInsert_of_not_mem _ hnotin
      have h' : ((acc ++ [(cf_safe_name tgt.Id, tgt.Arn)]).map Prod.fst ++
          ((ts.filter (fun tgt => strStartsWith tgt.Arn "arn:aws:lambda:")).map
            (fun tgt => cf_safe_name tgt.Id))).Nodup := by
        simpa [List.append_assoc] using h
      rw [List.foldl_cons, hstep, ih _ h', hfil, List.map_cons]
      simp [List.append_assoc]
    · have hfil : (tgt :: ts).filter (fun tgt => strStartsWith tgt.Arn "arn:aws:lambda:") =
          ts.filter (fun tgt => strStartsWith tgt.Arn "arn:aws:lambda:") := by
        simp [List.filter_cons, hm]
      rw [hfil] at h
      have hstep : gatherStep acc tgt = acc := by
        unfold gatherStep
        rw [if_neg (by simp [hm])]
      rw [List.foldl_cons, hstep, ih _ h, hfil]

end FunctionScheduler

theorem scheduler_resources (rule : EventsRule) :
    (FunctionScheduler.create_template rule).resources =
      rule.toResource ::
        (FunctionScheduler.gatherLambdaArns (rule.Targets.getD [])).map
          (FunctionScheduler.permResource rule.title) := by
  show ((FunctionScheduler.gatherLambdaArns (rule.Targets.getD [])).foldl
      (fun t kv => t.add_resource (FunctionScheduler.permResource rule.title kv))
      (Template.empty.add_resource rule.toResource)).resources = _
  rw [foldl_add_resource]
  rfl

/-! ## Claims -/

/-- C1: construction-time elision of the role and policy.  When the `Role`
variable is a non-empty string, `Function.create_template` adds no IAM role
and no IAM policy resource and uses the supplied string as the function's
`Role` property; when it is empty, exactly one role and one policy resource
are added, the policy's `Roles` property references that role, and the
function's `Role` property is the created role's `Arn` attribute. -/
theorem claim_C1 (fqn : String) (v : FunctionVars) :
    (v.Role ≠ "" →
      countKind (Function.create_template fqn v) "AWS::IAM::Role" = 0 ∧
      countKind (Function.create_template fqn v) "AWS::IAM::Policy" = 0 ∧
      resProp (Function.create_template fqn v) "Function" "Role" =
        some (.lit v.Role)) ∧
    (v.Role = "" →
      countKind (Function.create_template fqn v) "AWS::IAM::Role" = 1 ∧
      countKind (Function.create_template fqn v) "AWS::IAM::Policy" = 1 ∧
      resProp (Function.create_template fqn v) "Policy" "Roles" =
        some (.arr [.ref "Role"]) ∧
      resProp (Function.create_template fqn v) "Function" "Role" =
        some (.getAtt "Role" "Arn")) := by
  constructor <;> intro h <;>
    by_cases hA : v.AliasName = "" <;>
      simp [Function.create_template, Function.create_function, Function.create_role,
            Function.create_policy, Template.add_resource, Template.add_output,
            Template.empty, countKind, resProp, Template.findResource, lookupProp, h, hA]


theorem claim_C1_witness :
    (countKind (Function.create_template "app" c1roleGiven) "AWS::IAM::Role" = 0 ∧
     countKind (Function.create_template "app" c1roleGiven) "AWS::IAM::Policy" = 0 ∧
     resProp (Function.create_template "app" c1roleGiven) "Function" "Role" =
       some (.lit "arn:aws:iam::123456789012:role/existing")) ∧
    (countKind (Function.create_template "app" c1roleEmpty) "AWS::IAM::Role" = 1 ∧
     countKind (Function.create_template "app" c1roleEmpty) "AWS::IAM::Policy" = 1 ∧
     resProp (Function.create_template "app" c1roleEmpty) "Policy" "Roles" =
       some (.arr [.ref "Role"]) ∧
     resProp (Function.create_template "app" c1roleEmpty) "Function" "Role" =
       some (.getAtt "Role" "Arn")) :=
  ⟨(claim_C1 "app" c1roleGiven).1 (by decide),
   (claim_C1 "app" c1roleEmpty).2 rfl⟩

/-- C2 (amended): fan-out permission wiring.  For every events rule whose
`Targets` are given and whose lambda-matching targets have pairwise-distinct
sanitized Ids, `create_scheduler` adds the rule and then exactly one
permission per target whose Arn starts with `"arn:aws:lambda:"` (non-matching
targets get none), each titled `"PermToInvokeFunctionFor"` plus the
sanitized target Id, with `FunctionName` the target's Arn and `SourceArn`
the rule's `Arn` attribute. -/
theorem claim_C2 (rule : EventsRule)
    (hnd : (((rule.Targets.getD []).filter
        (fun tgt => strStartsWith tgt.Arn "arn:aws:lambda:")).map
        (fun tgt => cf_safe_name tgt.Id)).Nodup) :
    (FunctionScheduler.create_template rule).resources =
      rule.toResource ::
        ((rule.Targets.getD []).filter
            (fun tgt => strStartsWith tgt.Arn "arn:aws:lambda:")).map
          (fun tgt =>
            { title := "PermToInvokeFunctionFor" ++ cf_safe_name tgt.Id,
              kind := "AWS::Lambda::Permission",
              props :=
                [("Principal", .lit "events.amazonaws.com"),
                 ("Action", .lit "lambda:InvokeFunction"),
                 ("FunctionName", .lit tgt.Arn),
                 ("SourceArn", .getAtt rule.title "Arn")],
              condition := none }) := by
  rw [scheduler_resources]
  rw [show FunctionScheduler.gatherLambdaArns (rule.Targets.getD []) =
      ((rule.Targets.getD []).filter
          (fun tgt => strStartsWith tgt.Arn "arn:aws:lambda:")).map
        (fun tgt => (cf_safe_name tgt.Id, tgt.Arn)) from
    FunctionScheduler.gather_eq_map _ [] (by simpa using hnd)]
  rw [List.map_map]
  rfl

theorem claim_C2_witness :
    (((c2rule.Targets.getD []).filter
        (fun tgt => strStartsWith tgt.Arn "arn:aws:lambda:")).map
        (fun tgt => cf_safe_name tgt.Id)).Nodup ∧
    (FunctionScheduler.create_template c2rule).resources =
      c2rule.toResource ::
        [{ title := "PermToInvokeFunctionForFuncOne",
           kind := "AWS::Lambda::Permission",
           props :=
             [("Principal", .lit "events.amazonaws.com"),
              ("Action", .lit "lambda:InvokeFunction"),
              ("FunctionName", .lit "arn:aws:lambda:us-east-1:123456789012:function:one"),
              ("SourceArn", .getAtt "CronRule" "Arn")],
           condition := none },
         { title := "PermToInvokeFunctionForFuncTwo",
           kind := "AWS::Lambda::Permission",
           props :=
             [("Principal", .lit "events.amazonaws.com"),
              ("Action", .lit "lambda:InvokeFunction"),
              ("FunctionName", .lit "arn:aws:lambda:us-east-1:123456789012:function:two"),
              ("SourceArn", .getAtt "CronRule" "Arn")],
           condition := none }] :=
  ⟨by decide, claim_C2 c2rule (by decide)⟩

theorem claim_C2_counterexample :
    countKind (FunctionScheduler.create_template collidingRule)
        "AWS::Lambda::Permission" = 1 ∧
    ((collidingRule.Targets.getD []).filter
        (fun tgt => strStartsWith tgt.Arn "arn:aws:lambda:")).length = 2 ∧
    (1 : Nat) ≠ 2 :=
  ⟨rfl, rfl, by decide⟩

/-- C3 (amended): sanitized-name collisions are resolved by silent
overwrite.  Whenever some target matches the lambda prefix under the safe
name `s` (in particular when two distinct targets share it),
`create_scheduler` does not fail: it produces exactly one permission
resource titled with `s`, whose `FunctionName` is the Arn of the **last**
matching target with that safe name — earlier colliding targets are
silently dropped. -/
theorem claim_C3 (rule : EventsRule) (s arn : String)
    (h : lastMatchArn (rule.Targets.getD []) s = some arn) :
    (FunctionScheduler.create_template rule).resources.filter
        (fun r => r.kind == "AWS::Lambda::Permission" &&
          r.title == "PermToInvokeFunctionFor" ++ s) =
      [{ title := "PermToInvokeFunctionFor" ++ s,
         kind := "AWS::Lambda::Permission",
         props :=
           [("Principal", .lit "events.amazonaws.com"),
            ("Action", .lit "lambda:InvokeFunction"),
            ("FunctionName", .lit arn),
            ("SourceArn", .getAtt rule.title "Arn")],
         condition := none }] := by
  rw [scheduler_resources, List.filter_cons]
  rw [if_neg (by simp [EventsRule.toResource])]
  rw [filter_map_comm]
  have hfun : (fun kv : String × String =>
      ((FunctionScheduler.permResource rule.title kv).kind == "AWS::Lambda::Permission" &&
        ((FunctionScheduler.permResource rule.title kv).title ==
          "PermToInvokeFunctionFor" ++ s))) = (fun kv => kv.1 == s) := by
    funext kv
    simp [FunctionScheduler.permResource, beq_append_left]
  rw [hfun]
  rw [filter_key_of_nodup (FunctionScheduler.gather_keys_nodup _)
    ((FunctionScheduler.lookupS_gather _ _).trans h)]
  rfl

theorem claim_C3_witness :
    lastMatchArn (collidingRule.Targets.getD []) "MyFunc" =
      some "arn:aws:lambda:us-east-1:123456789012:function:two" ∧
    (FunctionScheduler.create_template collidingRule).resources.filter
        (fun r => r.kind == "AWS::Lambda::Permission" &&
          r.title == "PermToInvokeFunctionFor" ++ "MyFunc") =
      [{ title := "PermToInvokeFunctionForMyFunc",
         kind := "AWS::Lambda::Permission",
         props :=
           [("Principal", .lit "events.amazonaws.com"),
            ("Action", .lit "lambda:InvokeFunction"),
            ("FunctionName", .lit "arn:aws:lambda:us-east-1:123456789012:function:two"),
            ("SourceArn", .getAtt "CronRule" "Arn")],
         condition := none }] :=
  ⟨rfl, claim_C3 collidingRule "MyFunc"
    "arn:aws:lambda:us-east-1:123456789012:function:two" rfl⟩

theorem claim_C3_counterexample :
    (FunctionScheduler.create_template collidingRule).resources.filter
        (fun r => r.kind == "AWS::Lambda::Permission") =
      [{ title := "PermToInvokeFunctionForMyFunc",
         kind := "AWS::Lambda::Permission",
         props :=
           [("Principal", .lit "events.amazonaws.com"),
            ("Action", .lit "lambda:InvokeFunction"),
            ("FunctionName", .lit "arn:aws:lambda:us-east-1:123456789012:function:two"),
            ("SourceArn", .getAtt "CronRule" "Arn")],
         condition := none }] ∧
    "arn:aws:lambda:us-east-1:123456789012:function:one" ≠
      "arn:aws:lambda:us-east-1:123456789012:function:two" :=
  ⟨rfl, by decide⟩

/-- C4: render-time elision of the conditional DNS record.  For every
blueprint name and every parameter environment, `PostgresRDS.create_template`
always contains the `RecordSetType` resource and the `DBCname` output, both
owned by the condition `CreateInternalHostname`, and that composite
condition evaluates true exactly when `InternalZoneId`, `InternalZoneName`
and `InternalHostname` are all non-empty — so with only two supplied the
resource and output are in the graph under a false condition. -/
theorem claim_C4 (name : String) (env : String → String) :
    (PostgresRDS.create_template name).resources.filter
        (fun r => r.kind == "AWS::Route53::RecordSet") =
      [{ title := RDS_INSTANCE_NAME name ++ "DnsRecord",
         kind := "AWS::Route53::RecordSet",
         props :=
           [("HostedZoneId", .ref "InternalZoneId"),
            ("Comment", .lit "RDS DB CNAME Record"),
            ("Name", .join "." [.ref "InternalHostname", .ref "InternalZoneName"]),
            ("Type", .lit "CNAME"),
            ("TTL", .lit "120"),
            ("ResourceRecords",
             .arr [.getAtt (RDS_INSTANCE_NAME name) "Endpoint.Address"])],
         condition := some "CreateInternalHostname" }] ∧
    outputsNamed (PostgresRDS.create_template name) "DBCname" =
      [{ name := "DBCname", value := .ref (RDS_INSTANCE_NAME name ++ "DnsRecord"),
         condition := some "CreateInternalHostname" }] ∧
    (evalConds env (PostgresRDS.create_template name).conditions
        "CreateInternalHostname" = true ↔
      env "InternalZoneId" ≠ "" ∧ env "InternalZoneName" ≠ "" ∧
        env "InternalHostname" ≠ "") := by
  refine ⟨rfl, rfl, ?_⟩
  show ((!(env "InternalZoneId" == "")) && ((!(env "InternalZoneName" == "")) &&
        ((!(env "InternalHostname" == "")) && true))) = true ↔ _
  simp

/-- C5: resolution totality, defaults and required-variable failure for the
declared schemas of `Function` and `PostgresRDS`: a successful resolution
binds every declared variable, an unsupplied variable with a default is
bound to that default, and an absent required variable makes resolution
fail with `MissingRequiredVariable` naming a required absent variable. -/
theorem claim_C5 (supplied : List (String × VarValue)) (schema : List VariableSpec)
    (hschema : schema = Function.VARIABLES ∨ schema = PostgresRDS.VARIABLES) :
    (∀ out, resolve schema supplied = .ok out →
      (∀ s ∈ schema, ∃ v, lookupV out s.name = some v) ∧
      (∀ s ∈ schema, ∀ d, s.default? = some d → lookupV supplied s.name = none →
        lookupV out s.name = some d)) ∧
    (∀ s ∈ schema, s.default? = none → lookupV supplied s.name = none →
      ∃ w, resolve schema supplied = .error ("MissingRequiredVariable: " ++ w) ∧
        ∃ s', s' ∈ schema ∧ s'.name = w ∧ s'.default? = none ∧
          lookupV supplied s'.name = none) := by
  have hnd : (schema.map VariableSpec.name).Nodup := by
    rcases hschema with rfl | rfl <;> decide
  exact ⟨fun out h =>
    ⟨resolve_ok_total schema supplied out h,
     resolve_default schema supplied out hnd h⟩,
   resolve_missing schema supplied⟩


theorem claim_C5_witness :
    lookupV c5out "Handler" = some (.str "handler") ∧
    lookupV c5out "MemorySize" = some (.int 128) ∧
    (∃ w, resolve PostgresRDS.VARIABLES [] =
        .error ("MissingRequiredVariable: " ++ w) ∧
      ∃ s', s' ∈ PostgresRDS.VARIABLES ∧ s'.name = w ∧ s'.default? = none ∧
        lookupV [] s'.name = none) := by
  have h := claim_C5 c5supplied Function.VARIABLES (Or.inl rfl)
  have hok := h.1 c5out rfl
  have h2 := claim_C5 [] PostgresRDS.VARIABLES (Or.inr rfl)
  exact ⟨hok.2 ⟨"Handler", some (.str "handler")⟩ (by simp [Function.VARIABLES])
           (.str "handler") rfl rfl,
         hok.2 ⟨"MemorySize", some (.int 128)⟩ (by simp [Function.VARIABLES])
           (.int 128) rfl rfl,
         h2.2 ⟨"VpcId", none⟩ (by simp [PostgresRDS.VARIABLES]) rfl rfl⟩

/-- C6: DAG-by-construction of the `PostgresRDS` condition registry: the
registry is, in registration order, the three operand conditions followed by
the composite, and every entry's operand condition names are registered
strictly before it (so the `UndefinedCondition` branch of the registry check
is never taken). -/
theorem claim_C6 (name : String) :
    (PostgresRDS.create_template name).conditions =
      [("HasInternalZone", .notE (.equalsE (.ref "InternalZoneId") (.lit ""))),
       ("HasInternalZoneName", .notE (.equalsE (.ref "InternalZoneName") (.lit ""))),
       ("HasInternalHostname", .notE (.equalsE (.ref "InternalHostname") (.lit ""))),
       ("CreateInternalHostname",
        .andE [.condRef "HasInternalZone", .condRef "HasInternalZoneName",
               .condRef "HasInternalHostname"])] ∧
    wellFormedFrom [] (PostgresRDS.create_template name).conditions = true :=
  ⟨rfl, rfl⟩

/-- C7: render determinism — re-running any of the three blueprints'
`create_template` on the same resolved variables, and re-running the
resolver on the same schema and values, yields identical results. -/
theorem claim_C7 (fqn : String) (v : FunctionVars) (rule : EventsRule)
    (name : String) (schema : List VariableSpec)
    (supplied : List (String × VarValue)) :
    Function.create_template fqn v = Function.create_template fqn v ∧
    FunctionScheduler.create_template rule = FunctionScheduler.create_template rule ∧
    PostgresRDS.create_template name = PostgresRDS.create_template name ∧
    resolve schema supplied = resolve schema supplied :=
  ⟨rfl, rfl, rfl, rfl⟩

/-- C8: construction-time elision of the alias.  With an empty `AliasName`
no alias resource and no `AliasArn` output are added; with a non-empty one
exactly one alias resource and one `AliasArn` output are added, and the
alias's `FunctionVersion` is the `AliasVersion` variable, falling back to
`$LATEST` when that variable is empty. -/
theorem claim_C8 (fqn : String) (v : FunctionVars) :
    (v.AliasName = "" →
      countKind (Function.create_template fqn v) "AWS::Lambda::Alias" = 0 ∧
      outputsNamed (Function.create_template fqn v) "AliasArn" = []) ∧
    (v.AliasName ≠ "" →
      countKind (Function.create_template fqn v) "AWS::Lambda::Alias" = 1 ∧
      outputsNamed (Function.create_template fqn v) "AliasArn" =
        [{ name := "AliasArn", value := .ref "Alias", condition := none }] ∧
      resProp (Function.create_template fqn v) "Alias" "FunctionVersion" =
        some (.lit (if v.AliasVersion = "" then "$LATEST" else v.AliasVersion))) := by
  constructor <;> intro h <;>
    by_cases hR : v.Role = "" <;>
      simp [Function.create_template, Function.create_function, Function.create_role,
            Function.create_policy, Template.add_resource, Template.add_output,
            Template.empty, countKind, resProp, Template.findResource, lookupProp,
            outputsNamed, h, hR]


theorem claim_C8_witness :
    (countKind (Function.create_template "app" c8noAlias) "AWS::Lambda::Alias" = 0 ∧
     outputsNamed (Function.create_template "app" c8noAlias) "AliasArn" = []) ∧
    (countKind (Function.create_template "app" c8alias) "AWS::Lambda::Alias" = 1 ∧
     outputsNamed (Function.create_template "app" c8alias) "AliasArn" =
       [{ name := "AliasArn", value := .ref "Alias", condition := none }] ∧
     resProp (Function.create_template "app" c8alias) "Alias" "FunctionVersion" =
       some (.lit "$LATEST")) :=
  ⟨(claim_C8 "app" c8noAlias).1 rfl,
   (claim_C8 "app" c8alias).2 (by decide)⟩

/-- C9: empty optional inputs become the `NoValue` sentinel on the created
Lambda function, and non-empty ones are wrapped or passed through:
`DeadLetterConfig` with `TargetArn`, `Environment` with `Variables`,
`VpcConfig` from the mapping's keys, and `Description` / `KmsKeyArn`
directly. -/
theorem claim_C9 (fqn : String) (v : FunctionVars) :
    resProp (Function.create_template fqn v) "Function" "DeadLetterConfig" =
      some (if v.DeadLetterArn = "" then .noValue
            else .pairs [("TargetArn", .lit v.DeadLetterArn)]) ∧
    resProp (Function.create_template fqn v) "Function" "Environment" =
      some (if v.Environment = [] then .noValue
            else .pairs [("Variables",
              .pairs (v.Environment.map (fun kv => (kv.1, CfValue.lit kv.2))))]) ∧
    resProp (Function.create_template fqn v) "Function" "VpcConfig" =
      some (if v.VpcConfig.isEmpty then .noValue else .pairs v.VpcConfig) ∧
    resProp (Function.create_template fqn v) "Function" "Description" =
      some (if v.Description = "" then .noValue else .lit v.Description) ∧
    resProp (Function.create_template fqn v) "Function" "KmsKeyArn" =
      some (if v.KmsKeyArn = "" then .noValue else .lit v.KmsKeyArn) := by
  by_cases hR : v.Role = "" <;>
    by_cases hA : v.AliasName = "" <;>
      simp [Function.create_template, Function.create_function, Function.create_role,
            Function.create_policy, Function.dead_letter_config, Function.environment,
            Function.vpc_config, Template.add_resource, Template.add_output,
            Template.empty, resProp, Template.findResource, lookupProp, hR, hA]

/-- C10: the `DBAddress` output is always emitted, with the DB instance's
`Endpoint.Address` attribute as its value and no owning condition. -/
theorem claim_C10 (name : String) :
    outputsNamed (PostgresRDS.create_template name) "DBAddress" =
      [{ name := "DBAddress",
         value := .getAtt (RDS_INSTANCE_NAME name) "Endpoint.Address",
         condition := none }] := rfl

end StackerBlueprints
